import Mathlib

/-! uniswap-bot: gas-price cache, fee provider and execution loop

A shallow embedding of the Go sources

* `internal/ethgasstation/cache/memory/memory.go` (the in-memory cache),
* `internal/ethgasstation/gasstation.go` (the fee provider),
* `internal/app/price.go` (`Run`, the execution loop),
* `cmd/bot/main.go` (start-up),

followed by the properties established about them.

Conventions of the embedding:

* an `int64` is an `Int` inside `[-2^63, 2^63)`; every operation that can leave
  that range is reduced with `Go.wrapInt64`;
* a `float64` is its IEEE-754 binary64 encoding (sign, biased exponent,
  fraction), with the IEEE comparison;
* a `time.Time` is an `Int` number of nanoseconds counted from the zero
  `time.Time`, a `time.Duration` is an `Int` number of nanoseconds;
* an `error` is its message, `Option Err` is a Go `error` value (`none` is `nil`);
* calls to external collaborators (HTTP, JSON-RPC, GraphQL) are recorded as
  events, their results are inputs of the embedded function.
-/

namespace Go

/-- Conversion of an integer to `int64`: keep the low 64 bits, two's complement. -/
def wrapInt64 (x : Int) : Int := (x + 2 ^ 63) % 2 ^ 64 - 2 ^ 63

/-- Range of the `int64` type. -/
def isInt64 (x : Int) : Prop := -(2 ^ 63) ≤ x ∧ x < 2 ^ 63

instance (x : Int) : Decidable (isInt64 x) := by unfold isInt64; infer_instance

/-- Go `a / b` on `int64`: the quotient truncated toward zero. -/
def divInt64 (a b : Int) : Int := wrapInt64 (Int.tdiv a b)

/-- Go unary minus on `int64`. -/
def negInt64 (a : Int) : Int := wrapInt64 (-a)

/-- An `error` value is represented by its message. -/
abbrev Err := String

/-- A `float64`, as the three fields of its binary64 encoding. -/
structure Float64 where
  sign : Bool
  exp : Nat
  frac : Nat
  deriving DecidableEq

namespace Float64

/-- The zero value of `float64`, `+0`. -/
def zero : Float64 := ⟨false, 0, 0⟩

/-- Not-a-number: all exponent bits set and a non-zero fraction. -/
def isNaN (x : Float64) : Bool := x.exp == 2047 && x.frac != 0

/-- Position of a non-NaN value in the order of the extended reals: the
magnitude bits read as an integer, negated for a set sign bit (`-0` and `+0`
both at `0`). -/
def key (x : Float64) : Int :=
  if x.sign then -((x.exp * 2 ^ 52 + x.frac : Nat) : Int) else ((x.exp * 2 ^ 52 + x.frac : Nat) : Int)

/-- Go `x < y` on `float64`: false as soon as one side is NaN. -/
def lt (x y : Float64) : Bool := !x.isNaN && !y.isNaN && decide (x.key < y.key)

/-- Go `x >= y` on `float64`: false as soon as one side is NaN. -/
def ge (x y : Float64) : Bool := !x.isNaN && !y.isNaN && decide (y.key ≤ x.key)

/-- The value `1800`: `1.7578125 * 2^10`. -/
def f1800 : Float64 := ⟨false, 1033, 776 * 2 ^ 42⟩

/-- The value `2000`: `1.953125 * 2^10`. -/
def f2000 : Float64 := ⟨false, 1033, 976 * 2 ^ 42⟩

/-- The value `2500`: `1.220703125 * 2^11`. -/
def f2500 : Float64 := ⟨false, 1034, 452 * 2 ^ 41⟩

/-- The value `5`: `1.25 * 2^2`. -/
def f5 : Float64 := ⟨false, 1025, 2 ^ 50⟩

end Float64

/-- A `time.Time`: nanoseconds elapsed since the zero `time.Time`. -/
abbrev Time := Int

/-- A `time.Duration`: a number of nanoseconds. -/
abbrev Duration := Int

def Millisecond : Duration := 1000000
def Second : Duration := 1000 * Millisecond
def Minute : Duration := 60 * Second

/-- The function `t.After(u)`. -/
def Time.After (t u : Time) : Bool := decide (u < t)

/-- The function `t.Add(d)`. -/
def Time.Add (t : Time) (d : Duration) : Time := t + d

end Go

/-! ## `math/big`, as far as `GWei2Wei` uses it -/

namespace big

/-- A `big.Int`: sign and magnitude. -/
structure BigInt where
  neg : Bool
  abs : Nat
  deriving DecidableEq

/-- The call `big.NewInt(0)`. -/
def NewInt0 : BigInt := ⟨false, 0⟩

/-- The method `z.SetInt64(x)`. -/
def SetInt64 (_z : BigInt) (x : Int) : BigInt := ⟨decide (x < 0), x.natAbs⟩

/-- The method `z.SetUint64(x)`. -/
def SetUint64 (_z : BigInt) (x : Nat) : BigInt := ⟨false, x⟩

/-- The method `z.Mul(x, y)`: the sign is set only for a non-zero product of
operands of different sign. -/
def Mul (_z x y : BigInt) : BigInt :=
  ⟨decide (0 < x.abs * y.abs) && (x.neg != y.neg), x.abs * y.abs⟩

/-- The method `x.Int64()`: `v := int64(low64(x.abs)); if x.neg { v = -v }`. -/
def Int64 (x : BigInt) : Int :=
  let v := Go.wrapInt64 ((x.abs % 2 ^ 64 : Nat) : Int)
  if x.neg then Go.negInt64 v else v

end big

/-! ## `internal/ethgasstation/cache/memory` -/

namespace memory

open Go

/-- The struct `memory.Station`. -/
structure Station where
  Fast : Int
  Fastest : Int
  SafeLow : Int
  Average : Int
  BlockTime : Float64
  deriving DecidableEq

/-- The zero value `Station{}`. -/
def Station.zero : Station := ⟨0, 0, 0, 0, Float64.zero⟩

/-- The struct `memory.Storage` (the mutex has no sequential content). -/
structure Storage where
  st : Station
  exp : Time
  deriving DecidableEq

/-- The constructor `NewStorage`: a zero station, `exp` left at the zero time. -/
def NewStorage : Storage := { st := Station.zero, exp := 0 }

/-- The method `Expired`, read at clock value `now`: `time.Now().After(s.exp)`. -/
def Storage.Expired (s : Storage) (now : Time) : Bool := Time.After now s.exp

/-- The method `Get`, read at clock value `now`: `(nil, false)` when expired. -/
def Storage.Get (s : Storage) (now : Time) : Option Station × Bool :=
  if s.Expired now then (none, false) else (some s.st, true)

/-- The method `Set`, performed at clock value `now`. -/
def Storage.Set (s : Storage) (station : Station) (duration : Duration) (now : Time) : Storage :=
  { s with st := station, exp := Time.Add now duration }

/-- The method `GetWithoutExpiration`. -/
def Storage.GetWithoutExpiration (s : Storage) : Station := s.st

/-- The test fixture `saveParam` of `memory_test.go` (`BlockTime: 5`). -/
def saveParam : Station :=
  { Fast := 1, Fastest := 2, SafeLow := 3, Average := 4, BlockTime := Float64.f5 }

end memory

/-! ## `internal/ethgasstation` -/

namespace ethgasstation

open Go

/-- The struct `ethgasstation.Station` (the JSON document of the fee source). -/
structure Station where
  Fast : Int
  Fastest : Int
  SafeLow : Int
  Average : Int
  BlockTime : Float64
  deriving DecidableEq

/-- The struct `api`: cache lifetime and cache (the HTTP client is external). -/
structure api where
  cacheTime : Duration
  storage : memory.Storage
  deriving DecidableEq

/-- The function `GWei2Wei`: multiply by `1000000000` in `big.Int`, convert back. -/
def GWei2Wei (v : Int) : Int :=
  let value := big.SetInt64 big.NewInt0 v
  let value := big.Mul value value (big.SetUint64 big.NewInt0 1000000000)
  big.Int64 value

/-- The method `mappingStationToMemoryStation`. -/
def mappingStationToMemoryStation (s : Station) : memory.Station :=
  { Fast := GWei2Wei (divInt64 s.Fast 10)
    Fastest := GWei2Wei (divInt64 s.Fastest 10)
    SafeLow := GWei2Wei (divInt64 s.SafeLow 10)
    Average := GWei2Wei (divInt64 s.Average 10)
    BlockTime := s.BlockTime }

/-- The method `mappingMemoryStationToStation`. -/
def mappingMemoryStationToStation (s : memory.Station) : Station :=
  { Fast := s.Fast
    Fastest := s.Fastest
    SafeLow := s.SafeLow
    Average := s.Average
    BlockTime := s.BlockTime }

/-- The method `GetGasPrices`. `now` is the clock read by `storage.Get`, `req`
the result of `c.req(ctx)` (consulted only on a cache miss), `now2` the clock
read by `storage.Set` once the request has returned. The result is the returned
station, the returned error and the `api` afterwards. The first branch is
`if ok`: `Get` yields `true` only together with a station, so the second branch
is the path taken after `(nil, false)`. -/
def GetGasPrices (c : api) (now : Time) (req : Except Err Station) (now2 : Time) :
    Station × Option Err × api :=
  match c.storage.Get now with
  | (some cachedPrices, true) => (mappingMemoryStationToStation cachedPrices, none, c)
  | _ =>
    match req with
    | .error err => (mappingMemoryStationToStation c.storage.GetWithoutExpiration, some err, c)
    | .ok actualPrices =>
      (actualPrices, none,
        { c with storage := c.storage.Set (mappingStationToMemoryStation actualPrices) c.cacheTime now2 })

/-- The `api` built by `NewEthGasStationAPI`: ten seconds of cache, empty storage. -/
def NewEthGasStationAPI : api := { cacheTime := 10 * Second, storage := memory.NewStorage }

end ethgasstation

/-! ## `internal/model` and `internal/app` -/

namespace model

/-- The struct `model.Pair`. -/
structure Pair where
  Price0 : Go.Float64
  Price1 : Go.Float64
  deriving DecidableEq

end model

namespace app

open Go

/-- The struct `app`, restricted to the fields that are plain data (the
GraphQL/JSON-RPC clients, the contract binding, the fee service and the key
are handles on external collaborators). -/
structure app where
  threshold : Float64
  tgBotToken : String
  tgChannelID : Int
  deriving DecidableEq

/-- What one pass through the loop of `Run` does to the outside world. -/
inductive Event where
  | GetPricePair (pairID : String)
  | Println (args : List String)
  | Sleep (d : Duration)
  | RemoveLiquidity
  | Swap
  | sendMessage (chatID : Int) (msg : String)
  deriving DecidableEq

/-- The results the collaborators give when (and if) they are called during
one pass through the loop: `GetPricePair` returns `(*model.Pair, error)`,
`RemoveLiquidity` and `Swap` return `(string, error)`, `sendMessage` returns
`error`. -/
structure Outcomes where
  pair : Except Err model.Pair
  removeLiquidity : String × Option Err
  swap : String × Option Err
  send : Option Err

/-- The body of the `for` loop of `Run`: the events of one pass, in order.
Each `continue` ends the pass where it stands. -/
def Run.body (a : app) (pairID : String) (o : Outcomes) : List Event :=
  match o.pair with
  | .error err =>
    [Event.GetPricePair pairID, Event.Println ["err", err], Event.Sleep (100 * Millisecond)]
  | .ok pair =>
    if Float64.lt pair.Price0 a.threshold then
      [Event.GetPricePair pairID]
    else
      match o.removeLiquidity with
      | (_, some err) =>
        [Event.GetPricePair pairID, Event.RemoveLiquidity,
          Event.Println ["remove liquidity", err],
          Event.sendMessage a.tgChannelID ("remove liquidity " ++ err)]
      | (txHash, none) =>
        match o.swap with
        | (_, some err) =>
          [Event.GetPricePair pairID, Event.RemoveLiquidity,
            Event.Println ["Liquidity successful removed with hash", txHash],
            Event.Swap,
            Event.Println ["swap", err],
            Event.sendMessage a.tgChannelID ("swap " ++ err)]
        | (txHash2, none) =>
          [Event.GetPricePair pairID, Event.RemoveLiquidity,
            Event.Println ["Liquidity successful removed with hash", txHash],
            Event.Swap,
            Event.Println ["Swap successful completed with hash", txHash2],
            Event.Sleep (100 * Millisecond)]

/-- The method `Run`, which never returns: the events of its first `n` passes
through the loop, pass `i` meeting the collaborator results `world i`. -/
def Run (a : app) (pairID : String) (world : Nat → Outcomes) : Nat → List Event
  | 0 => []
  | n + 1 => Run a pairID world n ++ Run.body a pairID (world n)

/-- Recogniser of the notifier calls. -/
def Event.isSend : Event → Bool
  | Event.sendMessage _ _ => true
  | _ => false

/-- Recogniser of the delays. -/
def Event.isSleep : Event → Bool
  | Event.Sleep _ => true
  | _ => false

/-- Results of the three fallible external steps of `NewUniswap`, in the order
they are taken: `ethclient.DialContext`, `uniswap.NewUniswap`,
`crypto.HexToECDSA`. -/
structure Connect where
  dial : Option Err
  bind : Option Err
  key : Option Err

/-- The constructor `NewUniswap`. -/
def NewUniswap (ext : Connect) (_rpcURL _privKey tgBotToken : String) (tgChannelID : Int)
    (threshold : Float64) : Except Err app :=
  match ext.dial with
  | some err => .error err
  | none =>
    match ext.bind with
    | some err => .error err
    | none =>
      match ext.key with
      | some err => .error err
      | none =>
        .ok { threshold := threshold, tgBotToken := tgBotToken, tgChannelID := tgChannelID }

end app

/-! ## `cmd/bot` -/

namespace bot

open Go

/-- The constant `pairID`. -/
def pairID : String := "0xb4e16d0168e52d35cacd2c6185b44281ec28c9dc"

/-- The five environment variables `main` reads. -/
structure Env where
  ETH_RPC_URL : String
  PRIVATE_KEY : String
  TG_BOT_TOKEN : String
  TG_CHANNEL_ID : String
  ETH_THRESHOLD : String

/-- How `main` ends: with `panic(err)`, or inside `u.Run(pairID)`. -/
inductive Outcome where
  | panicked (err : Err)
  | running (u : app.app) (pairID : String)
  deriving DecidableEq

/-- The function `main`. `atoi` and `parseFloat` stand for `strconv.Atoi` and
`strconv.ParseFloat(·, 64)`, each returning its value together with its error;
`main` binds both errors to `_`. -/
def main (env : Env) (atoi : String → Int × Option Err)
    (parseFloat : String → Float64 × Option Err) (ext : app.Connect) : Outcome :=
  let rpcURL := env.ETH_RPC_URL
  let privateKey := env.PRIVATE_KEY
  let tgBotToken := env.TG_BOT_TOKEN
  let tgChannelID := env.TG_CHANNEL_ID
  let ethThreshold := env.ETH_THRESHOLD
  let (channelID, _) := atoi tgChannelID
  let (threshold, _) := parseFloat ethThreshold
  match app.NewUniswap ext rpcURL privateKey tgBotToken channelID threshold with
  | .error err => Outcome.panicked err
  | .ok u => Outcome.running u pairID

/-- What `strconv.Atoi` returns for a string without a digit, such as `abc`:
the value `0` and a syntax error. -/
def atoiRejects (s : String) : Int × Option Err :=
  (0, some ("strconv.Atoi: parsing " ++ s ++ ": invalid syntax"))

/-- What `strconv.ParseFloat` returns for a string without a digit, such as
`abc`: the value `0` and a syntax error. -/
def parseFloatRejects (s : String) : Float64 × Option Err :=
  (Float64.zero, some ("strconv.ParseFloat: parsing " ++ s ++ ": invalid syntax"))

/-- An environment whose two numeric variables are not numbers. -/
def malformedEnv : Env :=
  { ETH_RPC_URL := "http://localhost:8545"
    PRIVATE_KEY := "4c0883a69102937d6231471b5dbb6204fe5129617082792ae468d01a3f362318"
    TG_BOT_TOKEN := "token"
    TG_CHANNEL_ID := "abc"
    ETH_THRESHOLD := "abc" }

end bot

/-! ## Arithmetic of the unit conversion -/

namespace Go

theorem wrapInt64_of_isInt64 (x : Int) (h : isInt64 x) : wrapInt64 x = x := by
  unfold isInt64 at h
  unfold wrapInt64
  omega

theorem wrapInt64_isInt64 (x : Int) : isInt64 (wrapInt64 x) := by
  unfold isInt64 wrapInt64
  omega

theorem wrapInt64_congr (x y : Int) (h : x % 2 ^ 64 = y % 2 ^ 64) : wrapInt64 x = wrapInt64 y := by
  unfold wrapInt64
  omega

theorem wrapInt64_neg_wrapInt64 (x : Int) : wrapInt64 (-(wrapInt64 x)) = wrapInt64 (-x) := by
  unfold wrapInt64
  omega

theorem tdiv_ten_bounds (v : Int) :
    (0 ≤ v → 10 * Int.tdiv v 10 ≤ v ∧ v < 10 * Int.tdiv v 10 + 10) ∧
    (v < 0 → v ≤ 10 * Int.tdiv v 10 ∧ 10 * Int.tdiv v 10 - 10 < v) := by
  constructor
  · intro h
    rw [Int.tdiv_eq_ediv h (by decide)]
    omega
  · intro h
    have h1 : Int.tdiv v 10 = -((-v) / 10) := by
      have h2 := Int.neg_tdiv (-v) 10
      rw [neg_neg] at h2
      rw [h2, Int.tdiv_eq_ediv (by omega) (by decide)]
    rw [h1]
    omega

theorem divInt64_ten (v : Int) (h : isInt64 v) : divInt64 v 10 = Int.tdiv v 10 := by
  unfold divInt64
  apply wrapInt64_of_isInt64
  have hb := tdiv_ten_bounds v
  unfold isInt64 at h ⊢
  omega

end Go

namespace ethgasstation

open Go

/-- The round trip through `big.Int` is the wrapping `int64` product. -/
theorem GWei2Wei_eq_wrap (v : Int) : GWei2Wei v = wrapInt64 (v * 1000000000) := by
  unfold GWei2Wei big.Int64 big.Mul big.SetInt64 big.SetUint64
  dsimp only
  by_cases hv : v < 0
  · have hpos : 0 < v.natAbs * 1000000000 := by omega
    simp only [hv, hpos, decide_True, Bool.true_and, bne_iff_ne, ne_eq, Bool.true_eq_false,
      not_false_eq_true, if_true, Bool.not_false, decide_False, Bool.false_eq_true]
    unfold negInt64
    rw [wrapInt64_neg_wrapInt64]
    apply wrapInt64_congr
    push_cast
    rw [abs_of_neg hv]
    omega
  · simp only [hv, decide_False, bne_self_eq_false, Bool.and_false, Bool.false_eq_true, if_false]
    apply wrapInt64_congr
    push_cast
    rw [abs_of_nonneg (by omega)]
    omega

/-- One tier of the conversion: the wrapped product in general, the exact
product on the range where it fits an `int64`. -/
theorem tier_conversion (v : Int) (h : isInt64 v) :
    GWei2Wei (divInt64 v 10) = wrapInt64 (Int.tdiv v 10 * 1000000000) ∧
    (-92233720369 ≤ v ∧ v ≤ 92233720369 →
      GWei2Wei (divInt64 v 10) = Int.tdiv v 10 * 1000000000) := by
  rw [divInt64_ten v h, GWei2Wei_eq_wrap]
  refine ⟨rfl, ?_⟩
  intro hr
  apply wrapInt64_of_isInt64
  have hb := tdiv_ten_bounds v
  unfold isInt64
  omega

end ethgasstation

/-! ## The cache -/

namespace memory

open Go

theorem Get_Set (s : Storage) (v : Station) (d : Duration) (t0 t : Time) :
    (s.Set v d t0).Get t = if t0 + d < t then (none, false) else (some v, true) := by
  simp [Storage.Get, Storage.Set, Storage.Expired, Time.After, Time.Add]

/-- C3. After `Set(v, d)` at time `t0` with `d > 0`, a `Get` at any time `t`
with `t0 ≤ t < t0 + d` returns the stored station `v` and `found = true`. -/
theorem Get_after_Set_before_expiry (s : Storage) (v : Station) (d : Duration) (t0 t : Time)
    (hd : 0 < d) (h0 : t0 ≤ t) (h1 : t < t0 + d) :
    (s.Set v d t0).Get t = (some v, true) := by
  have _ := hd
  have _ := h0
  rw [Get_Set, if_neg (not_lt.mpr (le_of_lt h1))]

/-- C3, on the test `TestStorage_Memory_GetValue`: `Set(saveParam, 1 minute)`
followed at once by `Get`. -/
theorem Get_after_Set_before_expiry_witness :
    (NewStorage.Set saveParam (1 * Minute) 1000).Get 1000 = (some saveParam, true) :=
  Get_after_Set_before_expiry NewStorage saveParam (1 * Minute) 1000 1000
    (by decide) (by decide) (by decide)

/-- C4 as stated fails at the instant of expiry: 800ms after a `Set` with a
TTL of 800ms, `Get` still reports `found = true`. -/
theorem Get_at_expiry_instant_found :
    0 < 800 * Millisecond ∧ 1000 + 800 * Millisecond ≥ 1000 + 800 * Millisecond ∧
    (NewStorage.Set saveParam (800 * Millisecond) 1000).Get (1000 + 800 * Millisecond)
      = (some saveParam, true) := by
  decide

/-- C4, amended. After `Set(v, d)` at time `t0` with `d > 0`, a `Get` at time
`t` reports `found = false` exactly when `t` is strictly later than `t0 + d`,
and then returns no station. -/
theorem Get_after_Set_not_found_iff (s : Storage) (v : Station) (d : Duration) (t0 t : Time)
    (hd : 0 < d) :
    (((s.Set v d t0).Get t).2 = false ↔ t0 + d < t) ∧
    (t0 + d < t → (s.Set v d t0).Get t = (none, false)) := by
  have _ := hd
  rw [Get_Set]
  by_cases h : t0 + d < t <;> simp [h]

/-- C4, on the test `TestStorage_Memory_GetExpiredValue`: `Set(saveParam, 800ms)`,
read one second later. -/
theorem Get_after_Set_not_found_iff_witness :
    (NewStorage.Set saveParam (800 * Millisecond) 1000).Get (1000 + 1 * Second) = (none, false) :=
  (Get_after_Set_not_found_iff NewStorage saveParam (800 * Millisecond) 1000 (1000 + 1 * Second)
    (by decide)).2 (by decide)

/-- C5. A cache fresh from `NewStorage` reports `found = false` at every time
later than the zero time, and the station it holds is the zero station. -/
theorem NewStorage_Get_not_found (t : Time) (h : 0 < t) :
    NewStorage.Get t = (none, false) ∧
    NewStorage.GetWithoutExpiration = ⟨0, 0, 0, 0, Float64.zero⟩ := by
  refine ⟨?_, rfl⟩
  simp [Storage.Get, NewStorage, Storage.Expired, Time.After, h]

/-- C5, one nanosecond after the zero time. -/
theorem NewStorage_Get_not_found_witness :
    NewStorage.Get 1 = (none, false) :=
  (NewStorage_Get_not_found 1 (by decide)).1

end memory

/-! ## The fee provider -/

namespace ethgasstation

open Go

/-- A cache miss followed by a successful request: the station of the request
is returned as it came, its conversion goes to the cache. -/
theorem GetGasPrices_miss_ok (c : api) (now now2 : Time) (raw : Station)
    (h : c.storage.Expired now = true) :
    GetGasPrices c now (.ok raw) now2 =
      (raw, none, { c with storage := c.storage.Set (mappingStationToMemoryStation raw) c.cacheTime now2 }) := by
  simp [GetGasPrices, memory.Storage.Get, h]

/-- A cache miss followed by a failed request: the stored station, the error
of the request, the cache as it was. -/
theorem GetGasPrices_miss_error (c : api) (now now2 : Time) (e : Err)
    (h : c.storage.Expired now = true) :
    GetGasPrices c now (.error e) now2 =
      (mappingMemoryStationToStation c.storage.GetWithoutExpiration, some e, c) := by
  simp [GetGasPrices, memory.Storage.Get, h]

/-- C1. On an empty cache, a request answering `fast = 55` makes `GetGasPrices`
return `fast = 55`: the station of the request, unconverted. The converted
`fast = 5000000000` is what the cache receives and what the next call, served
from the cache one second later, returns. -/
theorem GetGasPrices_fetch_success_returns_raw :
    (GetGasPrices NewEthGasStationAPI 1000 (.ok ⟨55, 60, 40, 47, Float64.f5⟩) 2000).1
      = ⟨55, 60, 40, 47, Float64.f5⟩ ∧
    (GetGasPrices NewEthGasStationAPI 1000 (.ok ⟨55, 60, 40, 47, Float64.f5⟩) 2000).2.1 = none ∧
    (GetGasPrices NewEthGasStationAPI 1000 (.ok ⟨55, 60, 40, 47, Float64.f5⟩) 2000).2.2.storage.st
      = ⟨5000000000, 6000000000, 4000000000, 4000000000, Float64.f5⟩ ∧
    (GetGasPrices
        (GetGasPrices NewEthGasStationAPI 1000 (.ok ⟨55, 60, 40, 47, Float64.f5⟩) 2000).2.2
        (2000 + 1 * Second) (.ok ⟨55, 60, 40, 47, Float64.f5⟩) (2000 + 1 * Second)).1
      = ⟨5000000000, 6000000000, 4000000000, 4000000000, Float64.f5⟩ := by
  decide

/-- C2 as stated fails once the product leaves `int64`: the raw value
`92233720370` is stored as `-9223372036709551616`, not as
`9223372037 * 1000000000`. -/
theorem mappingStationToMemoryStation_overflow :
    isInt64 92233720370 ∧
    (mappingStationToMemoryStation ⟨92233720370, 0, 0, 0, Float64.zero⟩).Fast
      = -9223372036709551616 ∧
    (mappingStationToMemoryStation ⟨92233720370, 0, 0, 0, Float64.zero⟩).Fast
      ≠ Int.tdiv 92233720370 10 * 1000000000 := by
  decide

/-- C2, amended. For raw `int64` tiers, each stored tier is
`(v / 10) * 1000000000` (truncating division) reduced to `int64` by two's
complement wrap-around; it is exactly `(v / 10) * 1000000000` for every
`v` with `-92233720369 ≤ v ≤ 92233720369`, the range on which that product is
an `int64`. `BlockTime` is copied unchanged. -/
theorem mappingStationToMemoryStation_tiers (s : Station)
    (hFast : isInt64 s.Fast) (hFastest : isInt64 s.Fastest)
    (hSafeLow : isInt64 s.SafeLow) (hAverage : isInt64 s.Average) :
    ((mappingStationToMemoryStation s).Fast = wrapInt64 (Int.tdiv s.Fast 10 * 1000000000) ∧
     (mappingStationToMemoryStation s).Fastest = wrapInt64 (Int.tdiv s.Fastest 10 * 1000000000) ∧
     (mappingStationToMemoryStation s).SafeLow = wrapInt64 (Int.tdiv s.SafeLow 10 * 1000000000) ∧
     (mappingStationToMemoryStation s).Average = wrapInt64 (Int.tdiv s.Average 10 * 1000000000)) ∧
    ((-92233720369 ≤ s.Fast ∧ s.Fast ≤ 92233720369 →
       (mappingStationToMemoryStation s).Fast = Int.tdiv s.Fast 10 * 1000000000) ∧
     (-92233720369 ≤ s.Fastest ∧ s.Fastest ≤ 92233720369 →
       (mappingStationToMemoryStation s).Fastest = Int.tdiv s.Fastest 10 * 1000000000) ∧
     (-92233720369 ≤ s.SafeLow ∧ s.SafeLow ≤ 92233720369 →
       (mappingStationToMemoryStation s).SafeLow = Int.tdiv s.SafeLow 10 * 1000000000) ∧
     (-92233720369 ≤ s.Average ∧ s.Average ≤ 92233720369 →
       (mappingStationToMemoryStation s).Average = Int.tdiv s.Average 10 * 1000000000)) ∧
    (mappingStationToMemoryStation s).BlockTime = s.BlockTime := by
  have h1 := tier_conversion s.Fast hFast
  have h2 := tier_conversion s.Fastest hFastest
  have h3 := tier_conversion s.SafeLow hSafeLow
  have h4 := tier_conversion s.Average hAverage
  exact ⟨⟨h1.1, h2.1, h3.1, h4.1⟩, ⟨h1.2, h2.2, h3.2, h4.2⟩, rfl⟩

/-- C2, on the raw value `47` of the spec (and `55`, `-47`, `92233720369`):
`47` is stored as `4000000000`. -/
theorem mappingStationToMemoryStation_tiers_witness :
    (mappingStationToMemoryStation ⟨55, 92233720369, -47, 47, Float64.f5⟩).Average = 4000000000 ∧
    (mappingStationToMemoryStation ⟨55, 92233720369, -47, 47, Float64.f5⟩).Average
      = Int.tdiv 47 10 * 1000000000 ∧
    (mappingStationToMemoryStation ⟨55, 92233720369, -47, 47, Float64.f5⟩).BlockTime = Float64.f5 :=
  ⟨by decide,
   (mappingStationToMemoryStation_tiers ⟨55, 92233720369, -47, 47, Float64.f5⟩
      (by decide) (by decide) (by decide) (by decide)).2.1.2.2.2 (by decide),
   (mappingStationToMemoryStation_tiers ⟨55, 92233720369, -47, 47, Float64.f5⟩
      (by decide) (by decide) (by decide) (by decide)).2.2⟩

/-- C6. When a station `v` was `Set` at `t0` with lifetime `d` and has expired
(the clock is past `t0 + d`, so that the request is made), and the request
fails with error `e`, `GetGasPrices` returns the fields of `v`, which is the
result of `GetWithoutExpiration`, together with the error `e` (which is not
`nil`), and leaves the cache as it was. -/
theorem GetGasPrices_degraded (c : api) (v : memory.Station) (d : Duration) (t0 now now2 : Time)
    (e : Err) (hexp : t0 + d < now) :
    GetGasPrices { c with storage := c.storage.Set v d t0 } now (.error e) now2 =
      (⟨v.Fast, v.Fastest, v.SafeLow, v.Average, v.BlockTime⟩, some e,
        { c with storage := c.storage.Set v d t0 }) ∧
    (GetGasPrices { c with storage := c.storage.Set v d t0 } now (.error e) now2).1 =
      mappingMemoryStationToStation
        ({ c with storage := c.storage.Set v d t0 } : api).storage.GetWithoutExpiration ∧
    (GetGasPrices { c with storage := c.storage.Set v d t0 } now (.error e) now2).2.1 ≠ none := by
  have hx : (c.storage.Set v d t0).Expired now = true := by
    simpa [memory.Storage.Expired, memory.Storage.Set, Time.After, Time.Add] using hexp
  rw [GetGasPrices_miss_error _ _ _ _ hx]
  exact ⟨rfl, rfl, by simp⟩

/-- C6, on a station set with the ten seconds of `NewEthGasStationAPI` and read
eleven seconds later while the fee source is down. -/
theorem GetGasPrices_degraded_witness :
    GetGasPrices { NewEthGasStationAPI with
        storage := NewEthGasStationAPI.storage.Set memory.saveParam (10 * Second) 1000 }
      (1000 + 11 * Second) (.error "timeout") (1000 + 12 * Second) =
      (⟨1, 2, 3, 4, Float64.f5⟩, some "timeout",
        { NewEthGasStationAPI with
          storage := NewEthGasStationAPI.storage.Set memory.saveParam (10 * Second) 1000 }) :=
  (GetGasPrices_degraded NewEthGasStationAPI memory.saveParam (10 * Second) 1000
    (1000 + 11 * Second) (1000 + 12 * Second) "timeout" (by decide)).1

end ethgasstation

/-! ## The execution loop -/

namespace Go.Float64

theorem lt_eq_false_of_ge (x y : Float64) (h : ge x y = true) : lt x y = false := by
  unfold ge at h
  unfold lt
  simp only [Bool.and_eq_true, decide_eq_true_eq] at h
  obtain ⟨⟨hx, hy⟩, hk⟩ := h
  simp [hx, hy, not_lt.mpr hk]

end Go.Float64

namespace app

open Go

/-- C8. In one pass through the loop of `Run`, whatever the quote and the
threshold, when `RemoveLiquidity` reports an error `e`: `Swap` is not invoked,
and if `RemoveLiquidity` was invoked at all the notifier is invoked exactly
once, with the message `remove liquidity e`, which contains the text of `e`. -/
theorem Run_body_withdraw_failure (a : app) (pairID : String) (o : Outcomes) (e : Err)
    (he : o.removeLiquidity.2 = some e) :
    Event.Swap ∉ Run.body a pairID o ∧
    (Event.RemoveLiquidity ∈ Run.body a pairID o →
      (Run.body a pairID o).filter Event.isSend
          = [Event.sendMessage a.tgChannelID ("remove liquidity " ++ e)] ∧
      ∃ pre post : String, "remove liquidity " ++ e = pre ++ e ++ post) := by
  obtain ⟨pr, rl, sw, sd⟩ := o
  obtain ⟨h1, rlerr⟩ := rl
  simp only at he
  subst he
  cases pr with
  | error err => simp [Run.body, Event.isSend]
  | ok pair =>
    by_cases hlt : Float64.lt pair.Price0 a.threshold = true
    · simp [Run.body, hlt, Event.isSend]
    · simp only [Run.body, hlt]
      refine ⟨by simp, fun _ => ⟨by simp [Event.isSend], "remove liquidity ", "", by simp⟩⟩

/-- C8, on a quote of `2500` against a threshold of `2000` with a failing
withdrawal. -/
theorem Run_body_withdraw_failure_witness :
    Event.Swap ∉ Run.body ⟨Float64.f2000, "token", 42⟩ "pair"
        ⟨.ok ⟨Float64.f2500, Float64.f2500⟩, ("", some "nonce too low"), ("0xabc", none), none⟩ ∧
    (Run.body ⟨Float64.f2000, "token", 42⟩ "pair"
        ⟨.ok ⟨Float64.f2500, Float64.f2500⟩, ("", some "nonce too low"), ("0xabc", none), none⟩).filter
        Event.isSend = [Event.sendMessage 42 "remove liquidity nonce too low"] :=
  ⟨(Run_body_withdraw_failure ⟨Float64.f2000, "token", 42⟩ "pair"
      ⟨.ok ⟨Float64.f2500, Float64.f2500⟩, ("", some "nonce too low"), ("0xabc", none), none⟩
      "nonce too low" rfl).1,
   ((Run_body_withdraw_failure ⟨Float64.f2000, "token", 42⟩ "pair"
      ⟨.ok ⟨Float64.f2500, Float64.f2500⟩, ("", some "nonce too low"), ("0xabc", none), none⟩
      "nonce too low" rfl).2 (by decide)).1⟩

/-- C9. In one pass through the loop of `Run` whose quote was fetched:
`RemoveLiquidity` is invoked exactly once when `price0 >= threshold`, and
neither `RemoveLiquidity` nor `Swap` is invoked when `price0 < threshold`. -/
theorem Run_body_threshold (a : app) (pairID : String) (o : Outcomes) (pair : model.Pair)
    (hp : o.pair = .ok pair) :
    (Float64.ge pair.Price0 a.threshold = true →
      (Run.body a pairID o).count Event.RemoveLiquidity = 1) ∧
    (Float64.lt pair.Price0 a.threshold = true →
      (Run.body a pairID o).count Event.RemoveLiquidity = 0 ∧
      (Run.body a pairID o).count Event.Swap = 0) := by
  obtain ⟨pr, rl, sw, sd⟩ := o
  simp only at hp
  subst hp
  constructor
  · intro hge
    have hlt := Float64.lt_eq_false_of_ge _ _ hge
    obtain ⟨h1, _ | rlerr⟩ := rl
    · obtain ⟨h2, _ | swerr⟩ := sw <;> simp [Run.body, hlt]
    · simp [Run.body, hlt]
  · intro hlt
    simp [Run.body, hlt]

/-- C9, on the threshold `2000`: the quote `2500` executes, the quote `1800`
invokes no operation. -/
theorem Run_body_threshold_witness :
    (Run.body ⟨Float64.f2000, "token", 42⟩ "pair"
        ⟨.ok ⟨Float64.f2500, Float64.f2500⟩, ("0xabc", none), ("0xdef", none), none⟩).count
        Event.RemoveLiquidity = 1 ∧
    ((Run.body ⟨Float64.f2000, "token", 42⟩ "pair"
        ⟨.ok ⟨Float64.f1800, Float64.f1800⟩, ("0xabc", none), ("0xdef", none), none⟩).count
        Event.RemoveLiquidity = 0 ∧
     (Run.body ⟨Float64.f2000, "token", 42⟩ "pair"
        ⟨.ok ⟨Float64.f1800, Float64.f1800⟩, ("0xabc", none), ("0xdef", none), none⟩).count
        Event.Swap = 0) :=
  ⟨(Run_body_threshold ⟨Float64.f2000, "token", 42⟩ "pair"
      ⟨.ok ⟨Float64.f2500, Float64.f2500⟩, ("0xabc", none), ("0xdef", none), none⟩
      ⟨Float64.f2500, Float64.f2500⟩ rfl).1 (by decide),
   (Run_body_threshold ⟨Float64.f2000, "token", 42⟩ "pair"
      ⟨.ok ⟨Float64.f1800, Float64.f1800⟩, ("0xabc", none), ("0xdef", none), none⟩
      ⟨Float64.f1800, Float64.f1800⟩ rfl).2 (by decide)⟩

/-- C10. With threshold `2000` and every quote at `1800`, two passes through
the loop of `Run` are two calls of `GetPricePair` with no delay between them;
a pass whose withdrawal fails and a pass whose exchange fails contain no delay
either. -/
theorem Run_continue_skips_delay :
    Run ⟨Float64.f2000, "token", 42⟩ "pair"
        (fun _ => ⟨.ok ⟨Float64.f1800, Float64.f1800⟩, ("0xabc", none), ("0xdef", none), none⟩) 2
      = [Event.GetPricePair "pair", Event.GetPricePair "pair"] ∧
    (Run.body ⟨Float64.f2000, "token", 42⟩ "pair"
        ⟨.ok ⟨Float64.f2500, Float64.f2500⟩, ("", some "nonce too low"), ("0xdef", none), none⟩).filter
        Event.isSleep = [] ∧
    (Run.body ⟨Float64.f2000, "token", 42⟩ "pair"
        ⟨.ok ⟨Float64.f2500, Float64.f2500⟩, ("0xabc", none), ("", some "reverted"), none⟩).filter
        Event.isSleep = [] ∧
    (Run.body ⟨Float64.f2000, "token", 42⟩ "pair"
        ⟨.ok ⟨Float64.f2500, Float64.f2500⟩, ("0xabc", none), ("0xdef", none), none⟩).filter
        Event.isSleep = [Event.Sleep (100 * Millisecond)] ∧
    (Run.body ⟨Float64.f2000, "token", 42⟩ "pair"
        ⟨.error "failed to load price", ("0xabc", none), ("0xdef", none), none⟩).filter
        Event.isSleep = [Event.Sleep (100 * Millisecond)] := by
  decide

end app

/-! ## Start-up -/

namespace bot

open Go

/-- C7 as stated fails: with `TG_CHANNEL_ID` and `ETH_THRESHOLD` set to `abc`,
`main` does not abort; it enters `Run` with channel `0` and threshold `0`. -/
theorem main_malformed_numbers_run :
    (atoiRejects malformedEnv.TG_CHANNEL_ID).2 ≠ none ∧
    (parseFloatRejects malformedEnv.ETH_THRESHOLD).2 ≠ none ∧
    main malformedEnv atoiRejects parseFloatRejects ⟨none, none, none⟩
      = Outcome.running ⟨Float64.zero, "token", 0⟩ pairID := by
  decide

/-- C7, amended. A malformed `TG_CHANNEL_ID` or `ETH_THRESHOLD` is not a
start-up error. Whatever errors `strconv.Atoi` and `strconv.ParseFloat` report,
`main` passes the values they return to `NewUniswap`; when the three steps of
`NewUniswap` succeed it enters `Run` with those values, and it aborts only
with an error of one of those steps. -/
theorem main_discards_parse_errors (env : Env) (atoi : String → Int × Option Err)
    (parseFloat : String → Float64 × Option Err) (ext : app.Connect) :
    (ext.dial = none ∧ ext.bind = none ∧ ext.key = none →
      main env atoi parseFloat ext =
        Outcome.running ⟨(parseFloat env.ETH_THRESHOLD).1, env.TG_BOT_TOKEN,
          (atoi env.TG_CHANNEL_ID).1⟩ pairID) ∧
    (∀ err, main env atoi parseFloat ext = Outcome.panicked err →
      ext.dial = some err ∨ ext.bind = some err ∨ ext.key = some err) := by
  obtain ⟨dial, bind, key⟩ := ext
  cases dial <;> cases bind <;> cases key <;> simp [main, app.NewUniswap]

/-- C7, on the malformed environment with a reachable node and a valid key. -/
theorem main_discards_parse_errors_witness :
    main malformedEnv atoiRejects parseFloatRejects ⟨none, none, none⟩
      = Outcome.running ⟨Float64.zero, "token", 0⟩ pairID :=
  (main_discards_parse_errors malformedEnv atoiRejects parseFloatRejects ⟨none, none, none⟩).1
    ⟨rfl, rfl, rfl⟩

end bot
